import Mathlib

/-!
Verification of the `python-publisher` component (`main.py`) of the
redis-messaging-patterns repository.

The embedding models, from the source:
  * `create_message`  (main.py lines 68-79): the message builder and its counter;
  * `publish_message` (main.py lines 82-104): dual-mode dispatch with the
    `try`/`except redis.RedisError` control flow modelled by short-circuiting
    on the first broker error;
  * the connection-retry loop and the publishing loop of `run`
    (main.py lines 106-139), as trace-producing functions over a broker stub
    (`ping : Nat → Bool` gives the outcome of each connection attempt,
    `events : Nat → IterEvent` gives what happens inside each loop iteration,
    `stopAt` is the first iteration at whose top the `running` flag is
    observed false);
  * the `running` flag written only by `_signal_handler`
    (main.py lines 38-40), as `runningFlag` over a signal-delivery schedule.

Log lines are modelled structurally: each `print` f-string of the source
becomes a `LogEvent` constructor whose arguments are exactly the values the
source interpolates into that line.
-/

namespace PythonPublisher

/-- A message as built by `create_message` (main.py lines 73-79). -/
structure Message where
  id : String
  timestamp : String
  message : String
  sender : String
  count : Nat
deriving Repr, DecidableEq

/-- `create_message` (main.py lines 68-79): increments `self.message_count`,
then returns the new counter value together with the built message.
`uuid` and `ts` stand for the externally produced `uuid.uuid4()` and
`datetime.now().isoformat()` values. -/
def create_message (uuid ts : String) (message_count : Nat) : Nat × Message :=
  let mc := message_count + 1
  (mc, { id := uuid
         timestamp := ts
         message := "Hello from Python #" ++ toString mc
         sender := "python-publisher"
         count := mc })

/-- `n` successive calls to `create_message` starting from counter value `c`,
collecting the returned messages in order. -/
def buildMessages (uuid ts : String) : Nat → Nat → List Message
  | _, 0 => []
  | c, n + 1 =>
      let r := create_message uuid ts c
      r.2 :: buildMessages uuid ts r.1 n

/-- The two broker operations `publish_message` can perform. -/
inductive BrokerOp
  | publish
  | rpush
deriving Repr, DecidableEq

/-- Structural model of the log lines printed by `publish_message`
(main.py lines 94, 98, 103): each constructor carries exactly the data the
corresponding f-string interpolates.  Note the failure line
`f"[{ts}] Failed to publish message: {e}"` carries only the timestamp and
the underlying error. -/
inductive LogEvent
  | publishedToChannel (ts : String) (subscribers : Nat) (body : String)
  | pushedToQueue (ts : String) (length : Nat) (body : String)
  | publishFailed (ts : String) (err : String)
deriving Repr, DecidableEq

/-- A broker stub for one dispatch: the outcome of `redis_client.publish`
and of `redis_client.rpush`.  `Except.error e` models the call raising
`redis.RedisError(e)`; `Except.ok n` models it returning `n`. -/
structure Broker where
  publishResult : Except String Nat
  rpushResult : Except String Nat

/-- Result of one `publish_message` call: the returned Bool, the broker
operations attempted in order, and the log lines printed in order. -/
structure DispatchResult where
  ok : Bool
  ops : List BrokerOp
  logs : List LogEvent
deriving Repr, DecidableEq

/-- `publish_message` (main.py lines 82-104).  The whole body sits in one
`try` whose `except redis.RedisError` prints the failure line and returns
`False`; this is modelled by short-circuiting to the failure result as soon
as a broker call errors.  The two `if method in [...]` tests are sequential:
the publish branch runs before the rpush branch. -/
def publish_message (pattern : String) (br : Broker) (method? : Option String)
    (ts : String) (m : Message) : DispatchResult :=
  let method := method?.getD pattern
  if method = "pubsub" ∨ method = "both" then
    match br.publishResult with
    | .error e => ⟨false, [.publish], [.publishFailed ts e]⟩
    | .ok subs =>
      if method = "queue" ∨ method = "both" then
        match br.rpushResult with
        | .error e =>
            ⟨false, [.publish, .rpush],
              [.publishedToChannel ts subs m.message, .publishFailed ts e]⟩
        | .ok len =>
            ⟨true, [.publish, .rpush],
              [.publishedToChannel ts subs m.message,
               .pushedToQueue ts len m.message]⟩
      else ⟨true, [.publish], [.publishedToChannel ts subs m.message]⟩
  else
    if method = "queue" ∨ method = "both" then
      match br.rpushResult with
      | .error e => ⟨false, [.rpush], [.publishFailed ts e]⟩
      | .ok len => ⟨true, [.rpush], [.pushedToQueue ts len m.message]⟩
    else ⟨true, [], []⟩

/-- Events of the connection-retry loop of `run` (main.py lines 114-123):
a connection attempt with its 1-based index, or a `time.sleep(5)`. -/
inductive ConnEvent
  | attempt (i : Nat)
  | sleep5
deriving Repr, DecidableEq

/-- The connection-retry `for`/`else` loop of `run` (main.py lines 114-123),
as a trace of events plus the success flag.  `ping i` is the outcome of
`connect_to_redis()` on attempt `i` (its `redis_client.ping()` round trip).
On success the loop `break`s at once; on failure it prints the retry line and
sleeps 5 seconds before the next iteration — also after the final failed
attempt, since the `time.sleep(5)` precedes the loop's `else` clause.
`fuel` is the number of attempts remaining out of `max_retries`. -/
def connectRetryTrace (ping : Nat → Bool) : Nat → Nat → List ConnEvent × Bool
  | _, 0 => ([], false)
  | a, fuel + 1 =>
      if ping a then ([ConnEvent.attempt a], true)
      else
        let r := connectRetryTrace ping (a + 1) fuel
        (ConnEvent.attempt a :: ConnEvent.sleep5 :: r.1, r.2)

/-- `max_retries` (main.py line 115). -/
def max_retries : Nat := 5

/-- Number of connection attempts in a trace. -/
def attemptCount (t : List ConnEvent) : Nat :=
  (t.filter fun e => match e with | .attempt _ => true | .sleep5 => false).length

/-- Number of 5-second sleeps in a trace. -/
def sleepCount (t : List ConnEvent) : Nat :=
  (t.filter fun e => match e with | .attempt _ => false | .sleep5 => true).length

/-- What happens inside one iteration of the publishing loop
(main.py lines 126-135):
  * `normal ok`: `create_message` then `publish_message` (whose internal
    `except redis.RedisError` yields `ok = false` on a broker failure) then
    `time.sleep(publish_interval)` all complete;
  * `keyboard`: a `KeyboardInterrupt` is raised — modelled as arriving during
    the interval sleep, after the message was built and dispatched — and the
    `except KeyboardInterrupt` clause executes `break`;
  * `unexpected e`: some other exception `e` is raised during the dispatch
    (after `create_message` incremented the counter); the
    `except Exception` clause prints the error and does `time.sleep(1)`. -/
inductive IterEvent
  | normal (dispatchOk : Bool)
  | keyboard
  | unexpected (err : String)

/-- How the publishing loop was left. -/
inductive LoopStop
  | flagFalse
  | keyboardBreak
deriving Repr, DecidableEq

/-- Observable outcome of the publishing loop: final `message_count`,
number of `time.sleep(1)` calls, number of "Unexpected error" log lines,
and how the loop stopped. -/
structure LoopOut where
  messagesBuilt : Nat
  sleep1Count : Nat
  unexpectedLogs : Nat
  stop : LoopStop
deriving Repr, DecidableEq

/-- The `while self.running` loop of `run` (main.py lines 126-135).
`k` is the index of the next iteration, `count`/`s1`/`ul` are the
accumulated counter, sleep(1) count and unexpected-error log count, and the
last argument is the number of iterations until the `running` flag is first
observed false at the top of the loop (the flag is polled only there). -/
def loopGo (events : Nat → IterEvent) (k count s1 ul : Nat) :
    Nat → LoopOut
  | 0 => ⟨count, s1, ul, .flagFalse⟩
  | n + 1 =>
      match events k with
      | .normal _ => loopGo events (k + 1) (count + 1) s1 ul n
      | .keyboard => ⟨count + 1, s1, ul, .keyboardBreak⟩
      | .unexpected _ => loopGo events (k + 1) (count + 1) (s1 + 1) (ul + 1) n

/-- Observable outcome of one whole `run()` (main.py lines 106-139) plus the
resulting process exit status (from `sys.exit(1)` on the fatal path, or the
interpreter's normal status 0 when `run` returns and `__main__` ends). -/
structure RunResult where
  connTrace : List ConnEvent
  connected : Bool
  clientSet : Bool
  enteredLoop : Bool
  messagesBuilt : Nat
  sleep1Count : Nat
  finalLogCount : Option Nat
  closeCalls : Nat
  exitCode : Nat
deriving Repr

/-- `run` (main.py lines 106-139).  The connection phase runs the retry loop
with budget `max_retries`; its `else` clause calls `sys.exit(1)`, which
propagates out of `run` (there is no `try`/`finally`), so on that path the
final log line never prints and `close()` is never called.  `redis_client`
is assigned by the `redis.Redis(...)` constructor on the very first attempt,
before the `ping()` liveness check, and that constructor does not itself
raise for an unreachable host — so the handle is set (`clientSet`) whether or
not any attempt succeeds.  On loop exit (flag false or `KeyboardInterrupt`
break) the stop line prints `message_count` and `close()` is called once,
guarded by `if self.redis_client`. -/
def run (ping : Nat → Bool) (events : Nat → IterEvent) (stopAt : Nat) :
    RunResult :=
  let c := connectRetryTrace ping 1 max_retries
  let clientSet := true
  if c.2 then
    let out := loopGo events 0 0 0 0 stopAt
    { connTrace := c.1
      connected := true
      clientSet := clientSet
      enteredLoop := true
      messagesBuilt := out.messagesBuilt
      sleep1Count := out.sleep1Count
      finalLogCount := some out.messagesBuilt
      closeCalls := if clientSet then 1 else 0
      exitCode := 0 }
  else
    { connTrace := c.1
      connected := false
      clientSet := clientSet
      enteredLoop := false
      messagesBuilt := 0
      sleep1Count := 0
      finalLogCount := none
      closeCalls := 0
      exitCode := 1 }

/-- The `running` flag over discrete time.  `runningFlag sig k` is the flag
value after `k` time steps when `sig j = true` means a SIGINT/SIGTERM was
delivered during step `j`.  It starts `true` (`self.running = True`,
main.py line 31); the only writer after that is `_signal_handler`
(main.py lines 38-40), which sets it to `False`. -/
def runningFlag (sig : Nat → Bool) : Nat → Bool
  | 0 => true
  | k + 1 => if sig k then false else runningFlag sig k

/-- A concrete message used by closed counterexamples and witnesses. -/
def msg0 : Message :=
  { id := "id0", timestamp := "T", message := "hello"
    sender := "python-publisher", count := 1 }

theorem buildMessages_map_count (uuid ts : String) :
    ∀ (n c : Nat),
      (buildMessages uuid ts c n).map Message.count = List.range' (c + 1) n
  | 0, _ => rfl
  | n + 1, c => by
      simp [buildMessages, create_message, List.range'_succ,
        buildMessages_map_count uuid ts n (c + 1)]

/-- Claim C3: for every N ≥ 0, the `count` fields of N successive
`create_message` results, starting from the initial counter 0, are exactly
`1, 2, ..., N` in order — strictly increasing, gap-free and repeat-free —
and the counter is incremented by the builder itself, independently of any
dispatch outcome. -/
theorem create_message_counts_are_one_to_N (uuid ts : String) (N : Nat) :
    (buildMessages uuid ts 0 N).map Message.count = List.range' 1 N := by
  simpa using buildMessages_map_count uuid ts N 0

/-- Claim C10: for a delivery mode outside {pubsub, queue, both} (e.g. a
mistyped PATTERN environment value used as the default method),
`publish_message` performs no broker operation at all, prints nothing, and
still returns True. -/
theorem invalid_mode_no_op_returns_true (pattern : String) (br : Broker)
    (ts : String) (m : Message) (h1 : pattern ≠ "pubsub")
    (h2 : pattern ≠ "queue") (h3 : pattern ≠ "both") :
    publish_message pattern br none ts m = ⟨true, [], []⟩ := by
  simp [publish_message, h1, h2, h3]

/-- Witness for C10 at the concrete mistyped mode "bth", with a broker that
would fail both operations were they attempted. -/
theorem invalid_mode_no_op_returns_true_witness :
    publish_message "bth" ⟨Except.error "E", Except.error "E"⟩ none "T" msg0 =
      ⟨true, [], []⟩ :=
  invalid_mode_no_op_returns_true "bth" ⟨Except.error "E", Except.error "E"⟩
    "T" msg0 (by decide) (by decide) (by decide)

/-- Claim C1 counterexample: with a broker whose publish raises and whose
rpush would succeed, `publish_message` in mode "both" reports failure and
never attempts the append — the single `try` block means a publish failure
does prevent the append from being attempted, contradicting the claimed
independence of the two operations. -/
theorem publish_failure_prevents_append :
    (publish_message "both" ⟨Except.error "boom", Except.ok 1⟩ none "T"
        msg0).ok = false ∧
    BrokerOp.rpush ∉
      (publish_message "both" ⟨Except.error "boom", Except.ok 1⟩ none "T"
        msg0).ops := by
  decide

/-- Claim C1 (amended): dispatch in mode "both" attempts the publish before
the append, but inside one protected block: a publish failure is reported as
False with the append not attempted; a publish success followed by an append
failure is reported as False with the publish effect already performed; and
only when both succeed is True returned.  The full result (flag, operation
order, logs) is characterised for every broker outcome. -/
theorem both_mode_publish_then_append (ts : String) (m : Message) :
    (∀ (e : String) (r : Except String Nat),
        publish_message "both" ⟨Except.error e, r⟩ none ts m =
          ⟨false, [BrokerOp.publish], [LogEvent.publishFailed ts e]⟩) ∧
    (∀ (n : Nat) (e : String),
        publish_message "both" ⟨Except.ok n, Except.error e⟩ none ts m =
          ⟨false, [BrokerOp.publish, BrokerOp.rpush],
            [LogEvent.publishedToChannel ts n m.message,
             LogEvent.publishFailed ts e]⟩) ∧
    (∀ (n l : Nat),
        publish_message "both" ⟨Except.ok n, Except.ok l⟩ none ts m =
          ⟨true, [BrokerOp.publish, BrokerOp.rpush],
            [LogEvent.publishedToChannel ts n m.message,
             LogEvent.pushedToQueue ts l m.message]⟩) :=
  ⟨fun _ _ => rfl, fun _ _ => rfl, fun _ _ => rfl⟩

theorem connectRetryTrace_all_fail (ping : Nat → Bool)
    (h : ∀ i, 1 ≤ i → i ≤ 5 → ping i = false) :
    connectRetryTrace ping 1 5 =
      ([ConnEvent.attempt 1, ConnEvent.sleep5, ConnEvent.attempt 2,
        ConnEvent.sleep5, ConnEvent.attempt 3, ConnEvent.sleep5,
        ConnEvent.attempt 4, ConnEvent.sleep5, ConnEvent.attempt 5,
        ConnEvent.sleep5], false) := by
  simp [connectRetryTrace, h 1 (by decide) (by decide),
    h 2 (by decide) (by decide), h 3 (by decide) (by decide),
    h 4 (by decide) (by decide), h 5 (by decide) (by decide)]

/-- Claim C7 counterexample: with a broker that fails every attempt, the
retry loop sleeps 5 seconds after the fifth and final failed attempt as
well — the trace ends in a sleep that is not followed by any further
attempt, and there are 5 sleeps for 5 attempts, not 4.  This contradicts
the claim that the delay occurs only after a failed attempt that is
followed by another attempt. -/
theorem final_failed_attempt_also_sleeps :
    (connectRetryTrace (fun _ => false) 1 max_retries).1.getLast? =
      some ConnEvent.sleep5 ∧
    sleepCount (connectRetryTrace (fun _ => false) 1 max_retries).1 = 5 ∧
    attemptCount (connectRetryTrace (fun _ => false) 1 max_retries).1 = 5 := by
  decide

/-- Claim C7 (amended): connect returns success as soon as one attempt
succeeds, with no sleep after the successful attempt; it sleeps the fixed
5-second delay after every failed attempt (including, when all attempts
fail, the last one before the fatal exit).  With a broker stub failing
attempts 1-4 and succeeding on attempt 5, the connection succeeds after
exactly 5 attempts with exactly 4 sleeps, one between each pair of
consecutive attempts. -/
theorem connect_retry_sleep_pattern :
    (∀ (ping : Nat → Bool) (a n : Nat), ping a = true →
        connectRetryTrace ping a (n + 1) = ([ConnEvent.attempt a], true)) ∧
    connectRetryTrace (fun i => i == 5) 1 max_retries =
      ([ConnEvent.attempt 1, ConnEvent.sleep5, ConnEvent.attempt 2,
        ConnEvent.sleep5, ConnEvent.attempt 3, ConnEvent.sleep5,
        ConnEvent.attempt 4, ConnEvent.sleep5, ConnEvent.attempt 5], true) := by
  constructor
  · intro ping a n h
    simp [connectRetryTrace, h]
  · decide

/-- Witness for C7 (amended): immediate success on the first attempt ends
the retry loop at once with no sleep. -/
theorem connect_retry_sleep_pattern_witness :
    connectRetryTrace (fun _ => true) 3 1 = ([ConnEvent.attempt 3], true) :=
  connect_retry_sleep_pattern.1 (fun _ => true) 3 0 rfl

/-- Claim C2: with a broker whose liveness check fails on every attempt,
`run` makes exactly `max_retries = 5` connection attempts, exits with
status 1 and never enters the publishing loop; moreover, for every broker
stub, loop schedule and stop time, a non-zero exit status arises only on
this failed-connection path, which never enters the loop. -/
theorem exhausted_retries_exit_1 (ping : Nat → Bool)
    (events : Nat → IterEvent) (stopAt : Nat)
    (h : ∀ i, 1 ≤ i → i ≤ 5 → ping i = false) :
    attemptCount (run ping events stopAt).connTrace = 5 ∧
    (run ping events stopAt).exitCode = 1 ∧
    (run ping events stopAt).enteredLoop = false ∧
    (∀ (ping2 : Nat → Bool) (ev2 : Nat → IterEvent) (st2 : Nat),
        (run ping2 ev2 st2).exitCode ≠ 0 →
        (run ping2 ev2 st2).connected = false ∧
        (run ping2 ev2 st2).enteredLoop = false ∧
        (run ping2 ev2 st2).exitCode = 1) := by
  have hc := connectRetryTrace_all_fail ping h
  refine ⟨?_, ?_, ?_, ?_⟩
  · simp [run, max_retries, hc]
    decide
  · simp [run, max_retries, hc]
  · simp [run, max_retries, hc]
  · intro ping2 ev2 st2 hne
    by_cases h2 : (connectRetryTrace ping2 1 max_retries).2
    · exact absurd (by simp [run, h2]) hne
    · simp [run, h2]

/-- Witness for C2 at a concrete always-failing broker stub. -/
theorem exhausted_retries_exit_1_witness :
    attemptCount
        (run (fun _ => false) (fun _ => IterEvent.normal true) 0).connTrace
      = 5 ∧
    (run (fun _ => false) (fun _ => IterEvent.normal true) 0).exitCode = 1 ∧
    (run (fun _ => false) (fun _ => IterEvent.normal true) 0).enteredLoop
      = false :=
  let h := exhausted_retries_exit_1 (fun _ => false)
    (fun _ => IterEvent.normal true) 0 (fun _ _ _ => rfl)
  ⟨h.1, h.2.1, h.2.2.1⟩

/-- Claim C8: whenever `run` establishes the connection, the final stop line
logs exactly the current sequence-counter value (the number of attempted
dispatch cycles, successful or not), `close` is called once, and the process
exits with status 0. -/
theorem graceful_stop_logs_count_exit_0 (ping : Nat → Bool)
    (events : Nat → IterEvent) (stopAt : Nat)
    (h : (run ping events stopAt).connected = true) :
    (run ping events stopAt).finalLogCount =
      some (run ping events stopAt).messagesBuilt ∧
    (run ping events stopAt).exitCode = 0 ∧
    (run ping events stopAt).closeCalls = 1 := by
  by_cases h2 : (connectRetryTrace ping 1 max_retries).2
  · simp [run, h2]
  · rw [show (run ping events stopAt).connected = false by simp [run, h2]] at h
    exact absurd h (by simp)

/-- Witness for C8: a broker that accepts the first attempt, three normal
iterations, then the flag goes false. -/
theorem graceful_stop_logs_count_exit_0_witness :
    (run (fun _ => true) (fun _ => IterEvent.normal true) 3).finalLogCount =
      some (run (fun _ => true) (fun _ => IterEvent.normal true) 3).messagesBuilt ∧
    (run (fun _ => true) (fun _ => IterEvent.normal true) 3).exitCode = 0 ∧
    (run (fun _ => true) (fun _ => IterEvent.normal true) 3).closeCalls = 1 :=
  graceful_stop_logs_count_exit_0 (fun _ => true)
    (fun _ => IterEvent.normal true) 3 rfl

/-- Claim C4 counterexample: with a broker whose liveness check always
fails, the client handle is created (the constructor runs before the ping on
attempt 1 and does not fail) but `run` reaches `sys.exit(1)` without ever
calling `close` — the fatal startup path releases nothing, contradicting the
claim that every exit path closes the handle exactly once even when the
liveness check never succeeded. -/
theorem fatal_path_never_closes :
    (run (fun _ => false) (fun _ => IterEvent.normal true) 0).clientSet
      = true ∧
    (run (fun _ => false) (fun _ => IterEvent.normal true) 0).closeCalls
      = 0 ∧
    (run (fun _ => false) (fun _ => IterEvent.normal true) 0).exitCode = 1 :=
  ⟨rfl, rfl, rfl⟩

/-- Claim C4 (amended): the broker handle is closed exactly once on every
exit path on which the connection was established (flag-false stop and
keyboard-interrupt break), and is never closed twice; on the fatal startup
path, where the retry budget is exhausted, `sys.exit(1)` propagates with no
`finally`, so the already-created handle is not closed at all. -/
theorem close_called_once_iff_connected (ping : Nat → Bool)
    (events : Nat → IterEvent) (stopAt : Nat) :
    (run ping events stopAt).closeCalls =
      (if (run ping events stopAt).connected = true then 1 else 0) := by
  by_cases h2 : (connectRetryTrace ping 1 max_retries).2 <;> simp [run, h2]

theorem runningFlag_false_mono (sig : Nat → Bool) (j : Nat) :
    ∀ k, j ≤ k → runningFlag sig j = false → runningFlag sig k = false
  | 0, h, hj => by simpa [Nat.le_zero.mp h] using hj
  | k + 1, h, hj => by
      rcases Nat.lt_or_ge j (k + 1) with h1 | h1
      · have hk := runningFlag_false_mono sig j k (Nat.lt_succ_iff.mp h1) hj
        simp [runningFlag, hk]
      · have : j = k + 1 := Nat.le_antisymm h h1
        simpa [this] using hj

theorem loopGo_messagesBuilt_le (events : Nat → IterEvent) :
    ∀ (n k c s1 ul : Nat), (loopGo events k c s1 ul n).messagesBuilt ≤ c + n
  | 0, _, _, _, _ => by simp [loopGo]
  | n + 1, k, c, s1, ul => by
      have h1 := loopGo_messagesBuilt_le events n (k + 1) (c + 1) s1 ul
      have h2 := loopGo_messagesBuilt_le events n (k + 1) (c + 1) (s1 + 1)
        (ul + 1)
      cases hE : events k <;> simp [loopGo, hE] <;> omega

/-- Claim C6: the running flag starts true; once false it stays false
forever (it never reverts); it transitions true→false at most once — there
are no two distinct transition points; in the publishing loop, the flag is
polled at the top of each iteration, so once it is observed false at
iteration `stopAt` no further message is ever built (the count never exceeds
`stopAt`); and on every connected run the connection is closed exactly
once afterwards.  (Structurally, `runningFlag` is written only by the
modelled `_signal_handler`, which is its sole writer in the source.) -/
theorem running_flag_transitions_and_loop_stop :
    (∀ (sig : Nat → Bool), runningFlag sig 0 = true) ∧
    (∀ (sig : Nat → Bool) (j k : Nat), j ≤ k → runningFlag sig j = false →
        runningFlag sig k = false) ∧
    (∀ (sig : Nat → Bool) (j k : Nat), j < k →
        runningFlag sig j = true → runningFlag sig (j + 1) = false →
        ¬(runningFlag sig k = true ∧ runningFlag sig (k + 1) = false)) ∧
    (∀ (events : Nat → IterEvent) (stopAt : Nat),
        (loopGo events 0 0 0 0 stopAt).messagesBuilt ≤ stopAt) ∧
    (∀ (ping : Nat → Bool) (events : Nat → IterEvent) (stopAt : Nat),
        (run ping events stopAt).connected = true →
        (run ping events stopAt).closeCalls = 1) := by
  refine ⟨fun _ => rfl, ?_, ?_, ?_, ?_⟩
  · intro sig j k hjk hj
    exact runningFlag_false_mono sig j k hjk hj
  · intro sig j k hjk _ hj1
    rintro ⟨hk, _⟩
    have : runningFlag sig k = false := runningFlag_false_mono sig (j + 1) k hjk hj1
    simp [this] at hk
  · intro events stopAt
    simpa using loopGo_messagesBuilt_le events stopAt 0 0 0 0
  · intro ping events stopAt h
    by_cases h2 : (connectRetryTrace ping 1 max_retries).2
    · simp [run, h2]
    · rw [show (run ping events stopAt).connected = false by simp [run, h2]] at h
      exact absurd h (by simp)

/-- Witness for C6: a signal delivered during step 2 keeps the flag false at
step 5; a loop stopped at iteration 4 built at most 4 messages; a connected
run closes the handle once. -/
theorem running_flag_transitions_and_loop_stop_witness :
    runningFlag (fun k => k == 2) 5 = false ∧
    (loopGo (fun _ => IterEvent.normal true) 0 0 0 0 4).messagesBuilt ≤ 4 ∧
    (run (fun _ => true) (fun _ => IterEvent.normal true) 2).closeCalls = 1 :=
  ⟨running_flag_transitions_and_loop_stop.2.1 (fun k => k == 2) 3 5
      (by decide) (by decide),
   running_flag_transitions_and_loop_stop.2.2.2.1
      (fun _ => IterEvent.normal true) 4,
   running_flag_transitions_and_loop_stop.2.2.2.2 (fun _ => true)
      (fun _ => IterEvent.normal true) 2 rfl⟩

/-- Claim C5 counterexample: a dispatch failing in mode "pubsub" (publish
raises) and a dispatch failing in mode "queue" (rpush raises) with the same
underlying error print identical log output — the failure line
`Failed to publish message: ...` carries the timestamp and the error but
not the delivery mode, so the mode is not logged. -/
theorem failure_log_lacks_mode :
    (publish_message "pubsub" ⟨Except.error "E", Except.ok 1⟩ none "T"
        msg0).logs =
      (publish_message "queue" ⟨Except.ok 1, Except.error "E"⟩ none "T"
        msg0).logs ∧
    (publish_message "pubsub" ⟨Except.error "E", Except.ok 1⟩ none "T"
        msg0).ok = false ∧
    (publish_message "queue" ⟨Except.ok 1, Except.error "E"⟩ none "T"
        msg0).ok = false ∧
    "pubsub" ≠ "queue" := by
  decide

theorem publish_message_fail_last_log (pattern : String) (br : Broker)
    (method? : Option String) (ts : String) (m : Message)
    (h : (publish_message pattern br method? ts m).ok = false) :
    ∃ e, (publish_message pattern br method? ts m).logs.getLast? =
        some (LogEvent.publishFailed ts e) := by
  rcases br with ⟨pr, rr⟩
  rcases pr with e1 | n1 <;> rcases rr with e2 | n2 <;>
    by_cases hp : method?.getD pattern = "pubsub" ∨
      method?.getD pattern = "both" <;>
    by_cases hq : method?.getD pattern = "queue" ∨
      method?.getD pattern = "both" <;>
    simp_all [publish_message]

theorem loopGo_normal_events (b : Bool) :
    ∀ (n k c s1 ul : Nat),
      loopGo (fun _ => IterEvent.normal b) k c s1 ul n =
        ⟨c + n, s1, ul, LoopStop.flagFalse⟩
  | 0, _, _, _, _ => by simp [loopGo]
  | n + 1, k, c, s1, ul => by
      rw [show loopGo (fun _ => IterEvent.normal b) k c s1 ul (n + 1) =
        loopGo (fun _ => IterEvent.normal b) (k + 1) (c + 1) s1 ul n from rfl,
        loopGo_normal_events b n (k + 1) (c + 1) s1 ul]
      simp [Nat.add_assoc, Nat.add_comm 1 n]

/-- Claim C5 (amended): every broker communication failure inside
`publish_message` is caught and reported to the caller as the non-fatal
return value False, with a failure line carrying the timestamp and the
underlying error — but not the delivery mode — printed last; and dispatch
failures never terminate the run loop: even with every dispatch failing,
the loop completes all its iterations and stops only via the running
flag. -/
theorem dispatch_failure_caught_and_nonfatal (pattern : String) (br : Broker)
    (method? : Option String) (ts : String) (m : Message)
    (h : (publish_message pattern br method? ts m).ok = false) :
    (∃ e, (publish_message pattern br method? ts m).logs.getLast? =
        some (LogEvent.publishFailed ts e)) ∧
    (∀ n, loopGo (fun _ => IterEvent.normal false) 0 0 0 0 n =
        ⟨n, 0, 0, LoopStop.flagFalse⟩) :=
  ⟨publish_message_fail_last_log pattern br method? ts m h,
   fun n => by simpa using loopGo_normal_events false n 0 0 0 0⟩

/-- Witness for C5 (amended) at a concrete failing broker. -/
theorem dispatch_failure_caught_and_nonfatal_witness :
    (∃ e, (publish_message "both" ⟨Except.error "E", Except.ok 1⟩ none "T"
        msg0).logs.getLast? = some (LogEvent.publishFailed "T" e)) ∧
    loopGo (fun _ => IterEvent.normal false) 0 0 0 0 3 =
      ⟨3, 0, 0, LoopStop.flagFalse⟩ :=
  let h := dispatch_failure_caught_and_nonfatal "both"
    ⟨Except.error "E", Except.ok 1⟩ none "T" msg0 rfl
  ⟨h.1, h.2 3⟩

/-- Claim C9 counterexample: a `KeyboardInterrupt` raised in the first loop
iteration — a loop-body failure that is not a broker communication
failure — is neither logged as an unexpected error nor followed by the
1-second wait, and the loop does not remain publishing: it breaks after one
iteration although the running flag would have stayed true for five more. -/
theorem keyboard_interrupt_breaks_loop :
    loopGo (fun _ => IterEvent.keyboard) 0 0 0 0 5 =
      ⟨1, 0, 0, LoopStop.keyboardBreak⟩ :=
  rfl

/-- Claim C9 (amended): an unexpected in-loop error other than a
`KeyboardInterrupt` is logged, followed by the fixed 1-second wait, and the
loop goes on publishing; a `KeyboardInterrupt` instead breaks the loop,
after which shutdown is graceful; and no loop-body event ever produces a
non-zero exit status — exit status differs from 0 only when the startup
connection failed. -/
theorem unexpected_error_logged_wait_continue (events : Nat → IterEvent)
    (k c s1 ul n : Nat) (e : String)
    (hE : events k = IterEvent.unexpected e) :
    (loopGo events k c s1 ul (n + 1) =
        loopGo events (k + 1) (c + 1) (s1 + 1) (ul + 1) n) ∧
    (∀ (events2 : Nat → IterEvent) (k2 c2 s2 ul2 n2 : Nat),
        events2 k2 = IterEvent.keyboard →
        loopGo events2 k2 c2 s2 ul2 (n2 + 1) =
          ⟨c2 + 1, s2, ul2, LoopStop.keyboardBreak⟩) ∧
    (∀ (ping : Nat → Bool) (ev : Nat → IterEvent) (st : Nat),
        (run ping ev st).exitCode ≠ 0 →
        (run ping ev st).connected = false) := by
  refine ⟨?_, ?_, ?_⟩
  · simp [loopGo, hE]
  · intro events2 k2 c2 s2 ul2 n2 hk
    simp [loopGo, hk]
  · intro ping ev st hne
    by_cases h2 : (connectRetryTrace ping 1 max_retries).2
    · exact absurd (by simp [run, h2]) hne
    · simp [run, h2]

/-- Witness for C9 (amended) at a concrete schedule whose every iteration
raises an unexpected error. -/
theorem unexpected_error_logged_wait_continue_witness :
    loopGo (fun _ => IterEvent.unexpected "X") 0 0 0 0 3 =
      loopGo (fun _ => IterEvent.unexpected "X") 1 1 1 1 2 :=
  (unexpected_error_logged_wait_continue (fun _ => IterEvent.unexpected "X")
    0 0 0 0 2 "X" rfl).1

end PythonPublisher
